import Mathlib

/-!
Shallow embedding of the `uniqueid` crate (ChecksumDev/uniqueid).

Rust `String` values are modelled as `List Char` (called `Str` below);
`String::push_str` is list append, `String::push` appends a single
character, and `String::pop` is `List.dropLast` (on an empty string it
is a no-op, exactly as `String::pop` returning `None` is ignored by the
source). `Vec<T>` is `List T` and `Vec::push` appends at the end.

The crate has two parallel copies of the pipeline, in `src/lib.rs` and
`src/identifier.rs`; they are embedded in namespaces `Lib` and `Ident`
respectively. Calls into the external `sysinfo` crate are modelled by
an explicit `SysState` record that carries exactly the probe results
the source reads (first processor brand / vendor id / frequency,
processor count, total memory, and the disk list); the probe state is
threaded explicitly through every function that the source writes as
an OS query. The `sha3` crate's `Sha3_512` is embedded as a full
executable Keccak-f[1600] sponge (`sha3_512` below), and
`format!("{:x}", digest)` on the 64-byte output array as `hexChars`
(two lowercase hex digits per byte, in array order).
-/

namespace Uniqueid

/-- Rust `String`, modelled as its sequence of characters. -/
abbrev Str := List Char

/-- Rust `String::pop` followed by discarding the result: drops the last
character, and is a no-op on the empty string. -/
def rustPop (s : Str) : Str := s.dropLast

/-- Rust `str::to_lowercase`, modelled characterwise. -/
def rustToLowercase (s : Str) : Str := s.map Char.toLower

/-- Rust `str::trim`: remove leading and trailing whitespace. -/
def rustTrim (s : Str) : Str :=
  ((s.dropWhile Char.isWhitespace).reverse.dropWhile Char.isWhitespace).reverse

/-- Rust `u64::to_string` / `usize::to_string` (decimal). -/
def natStr (n : Nat) : Str := (Nat.repr n).data

/-- Model of the external `sysinfo` probe at its interface boundary:
the values the source reads from `System::new_all()` after
`refresh_all()` — brand, vendor id and frequency of `processors()[0]`,
`processors().len()`, `total_memory()`, and `disks()`. -/
structure Disk where
  is_removable : Bool
  total_space : Nat
  deriving DecidableEq, Repr

structure SysState where
  cpu_brand : Str
  cpu_vendor : Str
  cpu_frequency : Nat
  cpu_count : Nat
  total_memory : Nat
  disks : List Disk
  deriving DecidableEq, Repr

/-! Embedding of the `sha3` crate's `Sha3_512`: the Keccak-f[1600]
permutation and the SHA-3 sponge with rate 72 bytes, domain suffix
`0x06`, and a 64-byte output, per FIPS 202. Lanes are 64-bit words
modelled as `Nat` kept below `2 ^ 64`. -/

/-- All-ones 64-bit mask. -/
def u64mask : Nat := 0xFFFFFFFFFFFFFFFF

/-- Left rotation of a 64-bit lane by `n < 64` positions. -/
def rotl64 (x n : Nat) : Nat :=
  ((x <<< n) ||| (x >>> (64 - n))) &&& u64mask

/-- The 24 Keccak round constants. -/
def keccakRC : List Nat :=
  [0x0000000000000001, 0x0000000000008082, 0x800000000000808a,
   0x8000000080008000, 0x000000000000808b, 0x0000000080000001,
   0x8000000080008081, 0x8000000000008009, 0x000000000000008a,
   0x0000000000000088, 0x0000000080008009, 0x000000008000000a,
   0x000000008000808b, 0x800000000000008b, 0x8000000000008089,
   0x8000000000008003, 0x8000000000008002, 0x8000000000000080,
   0x000000000000800a, 0x800000008000000a, 0x8000000080008081,
   0x8000000000008080, 0x0000000080000001, 0x8000000080008008]

/-- Rho rotation offsets, indexed by `x + 5 * y`, one row of the
5-by-5 lane grid per list. -/
def rhoOffsets : List Nat :=
  [0, 1, 62, 28, 27] ++
  [36, 44, 6, 55, 20] ++
  [3, 10, 43, 25, 39] ++
  [41, 45, 15, 21, 8] ++
  [18, 2, 61, 56, 14]

/-- Lane `(x, y)` of a 25-lane state (indices taken mod 5). -/
def lane (s : List Nat) (x y : Nat) : Nat :=
  s.getD (x % 5 + 5 * (y % 5)) 0

/-- Keccak theta step. -/
def theta (s : List Nat) : List Nat :=
  let c := fun x =>
    lane s x 0 ^^^ lane s x 1 ^^^ lane s x 2 ^^^ lane s x 3 ^^^ lane s x 4
  let d := fun x => c ((x + 4) % 5) ^^^ rotl64 (c ((x + 1) % 5)) 1
  (List.range 25).map (fun i => s.getD i 0 ^^^ d (i % 5))

/-- Keccak rho and pi steps combined: the lane landing at `(X, Y)` is
the lane from `(X + 3 Y mod 5, X)` rotated by its rho offset. -/
def rhoPi (s : List Nat) : List Nat :=
  (List.range 25).map (fun j =>
    let bigX := j % 5
    let bigY := j / 5
    let x := (bigX + 3 * bigY) % 5
    let y := bigX
    rotl64 (lane s x y) (rhoOffsets.getD (x + 5 * y) 0))

/-- Keccak chi step (complement written as xor with the 64-bit mask). -/
def chi (s : List Nat) : List Nat :=
  (List.range 25).map (fun j =>
    let x := j % 5
    let y := j / 5
    lane s x y ^^^ ((lane s (x + 1) y ^^^ u64mask) &&& lane s (x + 2) y))

/-- Keccak iota step: xor the round constant into lane (0, 0). -/
def iotaStep (rc : Nat) (s : List Nat) : List Nat :=
  match s with
  | [] => []
  | a :: rest => (a ^^^ rc) :: rest

/-- One Keccak round. -/
def keccakRound (s : List Nat) (rc : Nat) : List Nat :=
  iotaStep rc (chi (rhoPi (theta s)))

/-- The full Keccak-f[1600] permutation: 24 rounds. -/
def keccakF (s : List Nat) : List Nat :=
  keccakRC.foldl keccakRound s

/-- SHA-3 pad10*1 with the `0x06` domain-separation suffix, to a
multiple of the rate `r` bytes. -/
def sha3Pad (r : Nat) (m : List Nat) : List Nat :=
  let q := r - m.length % r
  if q = 1 then m ++ [0x86]
  else m ++ [0x06] ++ List.replicate (q - 2) 0 ++ [0x80]

/-- Little-endian interpretation of (up to) eight bytes as one lane. -/
def bytesToLane (bs : List Nat) : Nat :=
  bs.foldr (fun b acc => (acc <<< 8) ||| (b &&& 0xFF)) 0

/-- Absorb one 72-byte block: xor it into the first nine lanes and
apply the permutation. -/
def absorbBlock (s block : List Nat) : List Nat :=
  keccakF ((List.range 25).map (fun j =>
    if j < 9 then s.getD j 0 ^^^ bytesToLane ((block.drop (8 * j)).take 8)
    else s.getD j 0))

/-- Absorb a padded message, 72 bytes at a time; structural recursion
on a fuel bound (any fuel at least the number of blocks gives the loop
of the source). -/
def absorbFuel : Nat → List Nat → List Nat → List Nat
  | 0, s, _ => s
  | _ + 1, s, [] => s
  | fuel + 1, s, m => absorbFuel fuel (absorbBlock s (m.take 72)) (m.drop 72)

/-- Absorb a padded message, 72 bytes at a time. -/
def absorb (s m : List Nat) : List Nat :=
  absorbFuel (m.length / 72 + 1) s m

/-- The eight little-endian bytes of one lane. -/
def laneToBytes (x : Nat) : List Nat :=
  (List.range 8).map (fun i => (x >>> (8 * i)) &&& 0xFF)

/-- Squeeze the 64-byte digest from the first eight lanes. -/
def squeeze64 (s : List Nat) : List Nat :=
  ((List.range 8).map (fun j => laneToBytes (s.getD j 0))).flatten

/-- SHA3-512 of a byte sequence: 64 output bytes. -/
def sha3_512 (m : List Nat) : List Nat :=
  squeeze64 (absorb (List.replicate 25 0) (sha3Pad 72 m))

/-- One lowercase hexadecimal digit. -/
def hexDigit (n : Nat) : Char :=
  if n < 10 then Char.ofNat (48 + n) else Char.ofNat (87 + n)

/-- Two lowercase hexadecimal digits of one byte (zero-padded). -/
def byteHex (b : Nat) : List Char :=
  [hexDigit ((b >>> 4) &&& 0xF), hexDigit (b &&& 0xF)]

/-- `format!("{:x}", digest)` on a byte array: every byte as two
lowercase hexadecimal digits, in array order. -/
def hexChars (bs : List Nat) : Str :=
  (bs.map byteHex).flatten

/-- UTF-8 encoding of one character (scalar value case split). -/
def utf8Char (c : Char) : List Nat :=
  let n := c.toNat
  if n < 0x80 then [n]
  else if n < 0x800 then
    [0xC0 ||| (n >>> 6), 0x80 ||| (n &&& 0x3F)]
  else if n < 0x10000 then
    [0xE0 ||| (n >>> 12), 0x80 ||| ((n >>> 6) &&& 0x3F), 0x80 ||| (n &&& 0x3F)]
  else
    [0xF0 ||| (n >>> 18), 0x80 ||| ((n >>> 12) &&& 0x3F),
     0x80 ||| ((n >>> 6) &&& 0x3F), 0x80 ||| (n &&& 0x3F)]

/-- Rust `str::as_bytes`: the UTF-8 bytes of a string. -/
def utf8Encode (s : Str) : List Nat :=
  (s.map utf8Char).flatten

/-- The hashed form used by both `Identifier::to_string` (lib.rs) and
`Identifier::build` (identifier.rs): SHA3-512 of the UTF-8 bytes,
formatted as lowercase hexadecimal. -/
def sha3_512_hex (s : Str) : Str :=
  hexChars (sha3_512 (utf8Encode s))

namespace Lib

/-- `src/lib.rs`: `enum IdentifierType { CPU, RAM, DISK }`. -/
inductive IdentifierType where
  | CPU
  | RAM
  | DISK
  deriving DecidableEq, Repr

/-- `src/lib.rs`: `IdentifierType::as_str`. -/
def IdentifierType.as_str : IdentifierType → Str
  | .CPU => "CPU".data
  | .RAM => "RAM".data
  | .DISK => "DISK".data

/-- `src/lib.rs`: `impl From<&str> for IdentifierType`. The catch-all
arm of the source `match` aborts (it raises an unrecoverable panic with
message "Unknown identifier type name: …"); that abort is modelled as
`none`, every non-aborting return as `some`. -/
def IdentifierType.fromStr (name : Str) : Option IdentifierType :=
  if name = "CPU".data then some .CPU
  else if name = "RAM".data then some .RAM
  else if name = "DISK".data then some .DISK
  else none

/-- `src/lib.rs`: `struct IdentifierTypeData { key, value }`. -/
structure IdentifierTypeData where
  key : Str
  value : Str
  deriving DecidableEq, Repr

/-- `src/lib.rs`: `IdentifierTypeData::new`. -/
def IdentifierTypeData.new (key value : Str) : IdentifierTypeData :=
  { key := key, value := value }

/-- `src/lib.rs`: `impl Display for IdentifierTypeData`, i.e.
`write!(f, "{}={}", self.key, self.value)`. -/
def IdentifierTypeData.fmt (d : IdentifierTypeData) : Str :=
  d.key ++ "=".data ++ d.value

/-- `src/lib.rs`: `struct IdentifierTypeDataBuilder`. -/
structure IdentifierTypeDataBuilder where
  identifier : IdentifierType
  data : List IdentifierTypeData
  deriving DecidableEq, Repr

/-- `src/lib.rs`: `IdentifierTypeDataBuilder::new` (empty data vector). -/
def IdentifierTypeDataBuilder.new (identifier : IdentifierType) :
    IdentifierTypeDataBuilder :=
  { identifier := identifier, data := [] }

/-- `src/lib.rs`: `IdentifierTypeDataBuilder::add` pushes one key/value
pair at the end of the data vector. -/
def IdentifierTypeDataBuilder.add (b : IdentifierTypeDataBuilder)
    (key value : Str) : IdentifierTypeDataBuilder :=
  { b with data := b.data ++ [{ key := key, value := value }] }

/-- `src/lib.rs` lines 181-197, `IdentifierTypeDataBuilder::build`:
push the identifier name, `'('`, then for each item the text
`"{key}={value}, "`, then `pop()` twice unconditionally, then `')'`. -/
def IdentifierTypeDataBuilder.build (b : IdentifierTypeDataBuilder) : Str :=
  let d0 := b.identifier.as_str ++ "(".data
  let d1 := d0 ++
    (b.data.map (fun item => item.key ++ "=".data ++ item.value ++ ", ".data)).flatten
  rustPop (rustPop d1) ++ ")".data

/-- `src/lib.rs`: `struct IdentifierTypeDataList { identifier, data }`. -/
structure IdentifierTypeDataList where
  identifier : IdentifierType
  data : List IdentifierTypeData
  deriving DecidableEq, Repr

/-- `src/lib.rs`: `IdentifierTypeDataList::new` (empty data vector). -/
def IdentifierTypeDataList.new (identifier : IdentifierType) :
    IdentifierTypeDataList :=
  { identifier := identifier, data := [] }

/-- `src/lib.rs`: `IdentifierTypeDataList::build_cpu`. The source
ignores `self` entirely and queries `sysinfo`; the probe results are the
`sys` argument here. -/
def IdentifierTypeDataList.build_cpu (_self : IdentifierTypeDataList)
    (sys : SysState) : Str :=
  let b0 := IdentifierTypeDataBuilder.new .CPU
  let b1 := b0.add "b".data (rustTrim (rustToLowercase sys.cpu_brand))
  let b2 := b1.add "v".data (rustTrim (rustToLowercase sys.cpu_vendor))
  let b3 := b2.add "f".data (natStr sys.cpu_frequency)
  let b4 := b3.add "c".data (natStr sys.cpu_count)
  b4.build

/-- `src/lib.rs`: `IdentifierTypeDataList::build_ram`; ignores `self`,
reads `total_memory()` from the probe. -/
def IdentifierTypeDataList.build_ram (_self : IdentifierTypeDataList)
    (sys : SysState) : Str :=
  ((IdentifierTypeDataBuilder.new .RAM).add "t".data
    (natStr sys.total_memory)).build

/-- `src/lib.rs`: `IdentifierTypeDataList::build_disk`; ignores `self`,
loops over the probe's disks, skipping removable ones (`continue`) and
concatenating one `DISK(t=…)` rendering per remaining disk. -/
def IdentifierTypeDataList.build_disk (_self : IdentifierTypeDataList)
    (sys : SysState) : Str :=
  sys.disks.foldl
    (fun result disk =>
      if disk.is_removable then result
      else result ++
        ((IdentifierTypeDataBuilder.new .DISK).add "t".data
          (natStr disk.total_space)).build)
    []

/-- `src/lib.rs` lines 227-236, `IdentifierTypeDataList::build`:
dispatch on the identifier tag; the stored `data` field is never read. -/
def IdentifierTypeDataList.build (self : IdentifierTypeDataList)
    (sys : SysState) : Str :=
  match self.identifier with
  | .CPU => self.build_cpu sys
  | .RAM => self.build_ram sys
  | .DISK => self.build_disk sys

/-- `src/lib.rs`: `struct Identifier { name: Option<String>, data }`. -/
structure Identifier where
  name : Option Str
  data : List IdentifierTypeDataList
  deriving DecidableEq, Repr

/-- `src/lib.rs`: `impl Default for Identifier` (derived): no name,
empty data vector. -/
def Identifier.default : Identifier :=
  { name := none, data := [] }

/-- `src/lib.rs`: `Identifier::new` — always a present name, empty data. -/
def Identifier.new (name : Str) : Identifier :=
  { name := some name, data := [] }

/-- `src/lib.rs` lines 321-347, `Identifier::to_string`: push the name
if present, `'['`, then for each entry its `build` followed by `", "`,
then `pop()` twice unconditionally, then `']'`; if `hash` is true,
return the SHA3-512 digest of the string's UTF-8 bytes in lowercase
hexadecimal instead. -/
def Identifier.to_string (self : Identifier) (hash : Bool)
    (sys : SysState) : Str :=
  let r0 := match self.name with
    | some name => name
    | none => []
  let r1 := r0 ++ "[".data ++
    (self.data.map (fun i => i.build sys ++ ", ".data)).flatten
  let result := rustPop (rustPop r1) ++ "]".data
  if hash then sha3_512_hex result else result

/-- `src/lib.rs`: `struct IdentifierBuilder { name, data }` with its
derived `Default` (no name, empty data). -/
structure IdentifierBuilder where
  name : Option Str
  data : List IdentifierTypeDataList
  deriving DecidableEq, Repr

def IdentifierBuilder.default : IdentifierBuilder :=
  { name := none, data := [] }

/-- `src/lib.rs`: `IdentifierBuilder::name` (the setter method). -/
def IdentifierBuilder.set_name (b : IdentifierBuilder) (name : Str) :
    IdentifierBuilder :=
  { b with name := some name }

/-- `src/lib.rs` lines 406-409, `IdentifierBuilder::add`: push
`IdentifierTypeDataList::new(identifier)` onto the data vector. -/
def IdentifierBuilder.add (b : IdentifierBuilder)
    (identifier : IdentifierType) : IdentifierBuilder :=
  { b with data := b.data ++ [IdentifierTypeDataList.new identifier] }

/-- `src/lib.rs` lines 422-427, `IdentifierBuilder::build`. -/
def IdentifierBuilder.build (b : IdentifierBuilder) : Identifier :=
  { name := b.name, data := b.data }

end Lib

namespace Ident

/-- `src/identifier.rs`: `enum IdentifierTypeName { CPU, RAM, DISK }`. -/
inductive IdentifierTypeName where
  | CPU
  | RAM
  | DISK
  deriving DecidableEq, Repr

/-- `src/identifier.rs`: `IdentifierTypeName::as_str`. -/
def IdentifierTypeName.as_str : IdentifierTypeName → Str
  | .CPU => "CPU".data
  | .RAM => "RAM".data
  | .DISK => "DISK".data

/-- `src/identifier.rs`: `impl From<&str> for IdentifierTypeName`; the
catch-all arm aborts with an unrecoverable panic, modelled as `none`. -/
def IdentifierTypeName.fromStr (name : Str) : Option IdentifierTypeName :=
  if name = "CPU".data then some .CPU
  else if name = "RAM".data then some .RAM
  else if name = "DISK".data then some .DISK
  else none

/-- `src/identifier.rs`: `struct IdentifierTypeData { key, value }`. -/
structure IdentifierTypeData where
  key : Str
  value : Str
  deriving DecidableEq, Repr

/-- `src/identifier.rs`: `IdentifierTypeData::new`. -/
def IdentifierTypeData.new (key value : Str) : IdentifierTypeData :=
  { key := key, value := value }

/-- `src/identifier.rs` lines 149-152, `IdentifierTypeData::to_string`:
`format!("{}={}", self.key, self.value)`. -/
def IdentifierTypeData.to_string (d : IdentifierTypeData) : Str :=
  d.key ++ "=".data ++ d.value

/-- `src/identifier.rs`: `struct IdentifierTypeDataBuilder`. -/
structure IdentifierTypeDataBuilder where
  type_ : IdentifierTypeName
  data : List IdentifierTypeData
  deriving DecidableEq, Repr

/-- `src/identifier.rs`: `IdentifierTypeDataBuilder::new`. -/
def IdentifierTypeDataBuilder.new (type_ : IdentifierTypeName) :
    IdentifierTypeDataBuilder :=
  { type_ := type_, data := [] }

/-- `src/identifier.rs`: `IdentifierTypeDataBuilder::add`. -/
def IdentifierTypeDataBuilder.add (b : IdentifierTypeDataBuilder)
    (key value : Str) : IdentifierTypeDataBuilder :=
  { b with data := b.data ++ [{ key := key, value := value }] }

/-- `src/identifier.rs` lines 91-108, `IdentifierTypeDataBuilder::build`:
same algorithm as the lib.rs copy — name, `'('`, each `"{key}={value}, "`,
two unconditional `pop()`s, `')'`. -/
def IdentifierTypeDataBuilder.build (b : IdentifierTypeDataBuilder) : Str :=
  let d0 := b.type_.as_str ++ "(".data
  let d1 := d0 ++
    (b.data.map (fun item => item.key ++ "=".data ++ item.value ++ ", ".data)).flatten
  rustPop (rustPop d1) ++ ")".data

/-- `src/identifier.rs`: `struct IdentifierType { name, data }`. -/
structure IdentifierType where
  name : IdentifierTypeName
  data : List IdentifierTypeData
  deriving DecidableEq, Repr

/-- `src/identifier.rs`: `IdentifierType::new` (empty data vector). -/
def IdentifierType.new (type_ : IdentifierTypeName) : IdentifierType :=
  { name := type_, data := [] }

/-- `src/identifier.rs`: `IdentifierType::build_cpu` (ignores `self`,
queries the probe). -/
def IdentifierType.build_cpu (_self : IdentifierType) (sys : SysState) : Str :=
  let b0 := IdentifierTypeDataBuilder.new .CPU
  let b1 := b0.add "b".data (rustTrim (rustToLowercase sys.cpu_brand))
  let b2 := b1.add "v".data (rustTrim (rustToLowercase sys.cpu_vendor))
  let b3 := b2.add "f".data (natStr sys.cpu_frequency)
  let b4 := b3.add "c".data (natStr sys.cpu_count)
  b4.build

/-- `src/identifier.rs`: `IdentifierType::build_ram`. -/
def IdentifierType.build_ram (_self : IdentifierType) (sys : SysState) : Str :=
  ((IdentifierTypeDataBuilder.new .RAM).add "t".data
    (natStr sys.total_memory)).build

/-- `src/identifier.rs`: `IdentifierType::build_disk`. -/
def IdentifierType.build_disk (_self : IdentifierType) (sys : SysState) : Str :=
  sys.disks.foldl
    (fun result disk =>
      if disk.is_removable then result
      else result ++
        ((IdentifierTypeDataBuilder.new .DISK).add "t".data
          (natStr disk.total_space)).build)
    []

/-- `src/identifier.rs` lines 171-180, `IdentifierType::build`:
dispatch on the tag; the stored `data` field is never read. -/
def IdentifierType.build (self : IdentifierType) (sys : SysState) : Str :=
  match self.name with
  | .CPU => self.build_cpu sys
  | .RAM => self.build_ram sys
  | .DISK => self.build_disk sys

/-- `src/identifier.rs`: `struct Identifier { name, data }`. -/
structure Identifier where
  name : Option Str
  data : List IdentifierType
  deriving DecidableEq, Repr

/-- `src/identifier.rs`: `Identifier::new`. -/
def Identifier.new (name : Option Str) (data : List IdentifierType) :
    Identifier :=
  { name := name, data := data }

/-- `src/identifier.rs` lines 265-290, `Identifier::build`: same
assembly as `Identifier::to_string` in lib.rs. -/
def Identifier.build (self : Identifier) (hash : Bool)
    (sys : SysState) : Str :=
  let r0 := match self.name with
    | some name => name
    | none => []
  let r1 := r0 ++ "[".data ++
    (self.data.map (fun i => i.build sys ++ ", ".data)).flatten
  let result := rustPop (rustPop r1) ++ "]".data
  if hash then sha3_512_hex result else result

/-- `src/identifier.rs`: `struct IdentifierBuilder` with `new`. -/
structure IdentifierBuilder where
  name : Option Str
  data : List IdentifierType
  deriving DecidableEq, Repr

def IdentifierBuilder.new : IdentifierBuilder :=
  { name := none, data := [] }

/-- `src/identifier.rs`: `IdentifierBuilder::name` (setter). -/
def IdentifierBuilder.set_name (b : IdentifierBuilder) (name : Str) :
    IdentifierBuilder :=
  { b with name := some name }

/-- `src/identifier.rs`: `IdentifierBuilder::add`. -/
def IdentifierBuilder.add (b : IdentifierBuilder)
    (type_ : IdentifierTypeName) : IdentifierBuilder :=
  { b with data := b.data ++ [IdentifierType.new type_] }

/-- `src/identifier.rs`: `IdentifierBuilder::build`. -/
def IdentifierBuilder.build (b : IdentifierBuilder) : Identifier :=
  { name := b.name, data := b.data }

end Ident

/-- Specification-side definition (spec §4.4), for the refinement claim
about the builder layer: direct construction (`Identifier::new` when a
name is given, the derived `Default` otherwise) followed by appending
one `IdentifierTypeDataList::new(tag)` per tag, in order. -/
def directConstructThenAppend (name : Option Str)
    (tags : List Lib.IdentifierType) : Lib.Identifier :=
  tags.foldl
    (fun id t => { id with data := id.data ++ [Lib.IdentifierTypeDataList.new t] })
    (match name with
     | some n => Lib.Identifier.new n
     | none => Lib.Identifier.default)

/-- The lib.rs tag and the identifier.rs tag with the same name. -/
def tagOfLib : Lib.IdentifierType → Ident.IdentifierTypeName
  | .CPU => .CPU
  | .RAM => .RAM
  | .DISK => .DISK

/-- The identifier.rs key/value pair with the same fields as a lib.rs one. -/
def dataOfLib (d : Lib.IdentifierTypeData) : Ident.IdentifierTypeData :=
  { key := d.key, value := d.value }

/-- The identifier.rs category corresponding to a lib.rs one. -/
def listOfLib (l : Lib.IdentifierTypeDataList) : Ident.IdentifierType :=
  { name := tagOfLib l.identifier, data := l.data.map dataOfLib }

/-- Membership in the lowercase hexadecimal alphabet. -/
def isLowerHexDigit (c : Char) : Bool :=
  "0123456789abcdef".data.contains c

/-! Helper lemmas about the append-then-pop-twice assembly shared by
both copies of the pipeline. -/

theorem dropLast_append_pair {α : Type} (s : List α) (a b : α) :
    ((s ++ [a, b]).dropLast).dropLast = s := by
  have h : s ++ [a, b] = (s ++ [a]) ++ [b] := by simp
  rw [h, List.dropLast_concat, List.dropLast_concat]

theorem intercalate_cons_cons {α : Type} (sep : List α) (a b : List α)
    (l : List (List α)) :
    List.intercalate sep (a :: b :: l) = a ++ sep ++ List.intercalate sep (b :: l) := by
  simp [List.intercalate, List.intersperse]

theorem flatten_map_append_sep {α : Type} (f : α → Str) (sep : Str) :
    ∀ (l : List α), l ≠ [] →
      (l.map (fun x => f x ++ sep)).flatten = List.intercalate sep (l.map f) ++ sep
  | [], h => absurd rfl h
  | [x], _ => by simp [List.intercalate]
  | x :: y :: xs, _ => by
    have ih := flatten_map_append_sep f sep (y :: xs) (by simp)
    simp only [List.map_cons, List.flatten_cons] at ih ⊢
    rw [ih, intercalate_cons_cons]
    simp [List.append_assoc]

theorem comma_space : ", ".data = [',', ' '] := rfl

/-- Closed form of `IdentifierTypeDataBuilder::build` (lib.rs) on a
non-empty attribute list: the two pops remove exactly the trailing
separator. -/
theorem lib_build_of_ne_nil (t : Lib.IdentifierType)
    (attrs : List Lib.IdentifierTypeData) (h : attrs ≠ []) :
    (Lib.IdentifierTypeDataBuilder.mk t attrs).build
      = t.as_str ++ "(".data ++
        List.intercalate ", ".data (attrs.map Lib.IdentifierTypeData.fmt) ++ ")".data := by
  show rustPop (rustPop (t.as_str ++ "(".data ++
      (attrs.map (fun item => item.key ++ "=".data ++ item.value ++ ", ".data)).flatten)) ++
      ")".data = _
  have hmap : attrs.map (fun item => item.key ++ "=".data ++ item.value ++ ", ".data)
      = attrs.map (fun item => Lib.IdentifierTypeData.fmt item ++ ", ".data) := by
    simp [Lib.IdentifierTypeData.fmt]
  rw [hmap, flatten_map_append_sep _ _ _ h, comma_space]
  rw [rustPop, rustPop]
  rw [show t.as_str ++ "(".data ++
      (List.intercalate [',', ' '] (attrs.map Lib.IdentifierTypeData.fmt) ++ [',', ' '])
      = (t.as_str ++ "(".data ++
          List.intercalate [',', ' '] (attrs.map Lib.IdentifierTypeData.fmt)) ++ [',', ' ']
    from by simp [List.append_assoc]]
  rw [dropLast_append_pair]

/-- Closed form of `IdentifierTypeDataBuilder::build` (lib.rs) on an
empty attribute list: the two pops remove `'('` and the last character
of the identifier name. -/
theorem lib_build_of_nil (t : Lib.IdentifierType) :
    (Lib.IdentifierTypeDataBuilder.mk t []).build = t.as_str.dropLast ++ ")".data := by
  show rustPop (rustPop (t.as_str ++ "(".data ++ ([] : List Str).flatten)) ++ ")".data = _
  rw [rustPop, rustPop]
  simp [show "(".data = ['('] from rfl, List.dropLast_concat]

/-- Closed form of `Identifier::to_string` (lib.rs, `hash = false`) on a
non-empty category list. -/
theorem Lib.to_string_false_of_ne_nil (name : Option Str)
    (data : List Lib.IdentifierTypeDataList) (h : data ≠ []) (sys : SysState) :
    (Lib.Identifier.mk name data).to_string false sys
      = (match name with | some n => n | none => []) ++ "[".data ++
        List.intercalate ", ".data (data.map (fun i => i.build sys)) ++ "]".data := by
  show rustPop (rustPop ((match name with | some n => n | none => []) ++ "[".data ++
      (data.map (fun i => i.build sys ++ ", ".data)).flatten)) ++ "]".data = _
  rw [flatten_map_append_sep _ _ _ h, comma_space, rustPop, rustPop]
  rw [show (match name with | some n => n | none => []) ++ "[".data ++
      (List.intercalate [',', ' '] (data.map (fun i => i.build sys)) ++ [',', ' '])
      = ((match name with | some n => n | none => []) ++ "[".data ++
          List.intercalate [',', ' '] (data.map (fun i => i.build sys))) ++ [',', ' ']
    from by simp [List.append_assoc]]
  rw [dropLast_append_pair]

/-- Closed form of `Identifier::to_string` (lib.rs, `hash = false`) on
an empty category list: the two pops remove `'['` and the last
character of the name (when one is present). -/
theorem Lib.to_string_false_of_nil (name : Option Str) (sys : SysState) :
    (Lib.Identifier.mk name []).to_string false sys
      = (match name with | some n => n | none => []).dropLast ++ "]".data := by
  show rustPop (rustPop ((match name with | some n => n | none => []) ++ "[".data ++
      ([] : List Str).flatten)) ++ "]".data = _
  rw [rustPop, rustPop]
  simp [show "[".data = ['['] from rfl, List.dropLast_concat]

/-- Closed form of `IdentifierTypeDataBuilder::build` (identifier.rs)
on a non-empty attribute list. -/
theorem ident_build_of_ne_nil (t : Ident.IdentifierTypeName)
    (attrs : List Ident.IdentifierTypeData) (h : attrs ≠ []) :
    (Ident.IdentifierTypeDataBuilder.mk t attrs).build
      = t.as_str ++ "(".data ++
        List.intercalate ", ".data (attrs.map Ident.IdentifierTypeData.to_string) ++ ")".data := by
  show rustPop (rustPop (t.as_str ++ "(".data ++
      (attrs.map (fun item => item.key ++ "=".data ++ item.value ++ ", ".data)).flatten)) ++
      ")".data = _
  have hmap : attrs.map (fun item => item.key ++ "=".data ++ item.value ++ ", ".data)
      = attrs.map (fun item => Ident.IdentifierTypeData.to_string item ++ ", ".data) := by
    simp [Ident.IdentifierTypeData.to_string]
  rw [hmap, flatten_map_append_sep _ _ _ h, comma_space]
  rw [rustPop, rustPop]
  rw [show t.as_str ++ "(".data ++
      (List.intercalate [',', ' '] (attrs.map Ident.IdentifierTypeData.to_string) ++ [',', ' '])
      = (t.as_str ++ "(".data ++
          List.intercalate [',', ' '] (attrs.map Ident.IdentifierTypeData.to_string)) ++ [',', ' ']
    from by simp [List.append_assoc]]
  rw [dropLast_append_pair]

/-- Closed form of `IdentifierTypeDataBuilder::build` (identifier.rs)
on an empty attribute list. -/
theorem ident_build_of_nil (t : Ident.IdentifierTypeName) :
    (Ident.IdentifierTypeDataBuilder.mk t []).build = t.as_str.dropLast ++ ")".data := by
  show rustPop (rustPop (t.as_str ++ "(".data ++ ([] : List Str).flatten)) ++ ")".data = _
  rw [rustPop, rustPop]
  simp [show "(".data = ['('] from rfl, List.dropLast_concat]

/-- Closed form of `Identifier::build` (identifier.rs, `hash = false`)
on a non-empty category list. -/
theorem Ident.identifier_build_false_of_ne_nil (name : Option Str)
    (data : List Ident.IdentifierType) (h : data ≠ []) (sys : SysState) :
    (Ident.Identifier.mk name data).build false sys
      = (match name with | some n => n | none => []) ++ "[".data ++
        List.intercalate ", ".data (data.map (fun i => i.build sys)) ++ "]".data := by
  show rustPop (rustPop ((match name with | some n => n | none => []) ++ "[".data ++
      (data.map (fun i => i.build sys ++ ", ".data)).flatten)) ++ "]".data = _
  rw [flatten_map_append_sep _ _ _ h, comma_space, rustPop, rustPop]
  rw [show (match name with | some n => n | none => []) ++ "[".data ++
      (List.intercalate [',', ' '] (data.map (fun i => i.build sys)) ++ [',', ' '])
      = ((match name with | some n => n | none => []) ++ "[".data ++
          List.intercalate [',', ' '] (data.map (fun i => i.build sys))) ++ [',', ' ']
    from by simp [List.append_assoc]]
  rw [dropLast_append_pair]

/-- Closed form of `Identifier::build` (identifier.rs, `hash = false`)
on an empty category list. -/
theorem Ident.identifier_build_false_of_nil (name : Option Str) (sys : SysState) :
    (Ident.Identifier.mk name []).build false sys
      = (match name with | some n => n | none => []).dropLast ++ "]".data := by
  show rustPop (rustPop ((match name with | some n => n | none => []) ++ "[".data ++
      ([] : List Str).flatten)) ++ "]".data = _
  rw [rustPop, rustPop]
  simp [show "[".data = ['['] from rfl, List.dropLast_concat]

/-! Helper lemmas about the digest path: lengths and alphabet of the
hexadecimal rendering. -/

theorem length_laneToBytes (x : Nat) : (laneToBytes x).length = 8 := by
  simp [laneToBytes]

theorem length_squeeze64 (s : List Nat) : (squeeze64 s).length = 64 := by
  simp [squeeze64, List.length_flatten, List.map_map, Function.comp_def,
    length_laneToBytes]

theorem length_sha3_512 (m : List Nat) : (sha3_512 m).length = 64 :=
  length_squeeze64 _

theorem length_hexChars (bs : List Nat) : (hexChars bs).length = 2 * bs.length := by
  induction bs with
  | nil => rfl
  | cons b tl ih =>
    simp [hexChars, byteHex] at ih ⊢
    omega

theorem hexDigit_mem (n : Nat) (h : n < 16) : isLowerHexDigit (hexDigit n) = true := by
  have haux : ∀ m < 16, isLowerHexDigit (hexDigit m) = true := by decide
  exact haux n h

theorem all_hexChars (bs : List Nat) : (hexChars bs).all isLowerHexDigit = true := by
  induction bs with
  | nil => rfl
  | cons b tl ih =>
    have h1 : (b >>> 4) &&& 0xF < 16 := Nat.lt_succ_of_le Nat.and_le_right
    have h2 : b &&& 0xF < 16 := Nat.lt_succ_of_le Nat.and_le_right
    rw [show hexChars (b :: tl) = byteHex b ++ hexChars tl from rfl,
      List.all_append, ih]
    simp [byteHex, List.all_cons, hexDigit_mem _ h1, hexDigit_mem _ h2]

/-! Helper lemmas for the probe-dependence and duplication claims. -/

/-- `IdentifierTypeDataList::build` (lib.rs) reads only the tag of its
receiver and the probe state; the stored attribute vector is ignored. -/
theorem lib_build_ignores_data (a b : Lib.IdentifierTypeDataList)
    (h : a.identifier = b.identifier) (sys : SysState) :
    a.build sys = b.build sys := by
  obtain ⟨ta, da⟩ := a
  obtain ⟨tb, db⟩ := b
  simp only at h
  subst h
  cases ta <;> rfl

/-- `IdentifierType::build` (identifier.rs) likewise ignores the stored
attribute vector. -/
theorem ident_build_ignores_data (a b : Ident.IdentifierType)
    (h : a.name = b.name) (sys : SysState) :
    a.build sys = b.build sys := by
  obtain ⟨ta, da⟩ := a
  obtain ⟨tb, db⟩ := b
  simp only at h
  subst h
  cases ta <;> rfl

theorem lib_map_build_of_tags_eq (sys : SysState) :
    ∀ (l1 l2 : List Lib.IdentifierTypeDataList),
      l1.map (fun i => i.identifier) = l2.map (fun i => i.identifier) →
      l1.map (fun i => i.build sys ++ ", ".data)
        = l2.map (fun i => i.build sys ++ ", ".data)
  | [], [], _ => rfl
  | [], _ :: _, h => by simp at h
  | _ :: _, [], h => by simp at h
  | a :: l1, b :: l2, h => by
    simp only [List.map_cons, List.cons.injEq] at h ⊢
    exact ⟨by rw [lib_build_ignores_data a b h.1], lib_map_build_of_tags_eq sys l1 l2 h.2⟩

theorem ident_map_build_of_tags_eq (sys : SysState) :
    ∀ (l1 l2 : List Ident.IdentifierType),
      l1.map (fun i => i.name) = l2.map (fun i => i.name) →
      l1.map (fun i => i.build sys ++ ", ".data)
        = l2.map (fun i => i.build sys ++ ", ".data)
  | [], [], _ => rfl
  | [], _ :: _, h => by simp at h
  | _ :: _, [], h => by simp at h
  | a :: l1, b :: l2, h => by
    simp only [List.map_cons, List.cons.injEq] at h ⊢
    exact ⟨by rw [ident_build_ignores_data a b h.1], ident_map_build_of_tags_eq sys l1 l2 h.2⟩

/-- One category renders identically through both copies of the
pipeline (the identifier.rs counterpart of a lib.rs category). -/
theorem buildList_eq_buildType (l : Lib.IdentifierTypeDataList) (sys : SysState) :
    l.build sys = (listOfLib l).build sys := by
  obtain ⟨t, d⟩ := l
  cases t <;> rfl

/-- Folding `IdentifierBuilder::add` and then `build` (lib.rs) equals
building first and then folding the direct append on `Identifier`. -/
theorem Lib.foldl_add_build (tags : List Lib.IdentifierType) :
    ∀ b : Lib.IdentifierBuilder,
      (tags.foldl Lib.IdentifierBuilder.add b).build
        = tags.foldl
            (fun id t => { id with data := id.data ++ [Lib.IdentifierTypeDataList.new t] })
            b.build := by
  induction tags with
  | nil => intro b; rfl
  | cons t ts ih =>
    intro b
    simp only [List.foldl_cons]
    rw [ih]
    rfl

/-! Validation of the Keccak embedding against published SHA3-512
values: the empty message, and the string of spec §8 scenario C. -/

set_option maxRecDepth 10000 in
theorem sha3_512_empty_message :
    hexChars (sha3_512 [])
      = ("a69f73cca23a9ac5c8b567dc185a756e97c982164fe25859e0d1dcc1475c80a6" ++
         "15b2123af1f5f94c11e3e9402c3ac558f500199d95b6d3e301758586281dcd26").data := by
  decide

set_option maxRecDepth 10000 in
theorem sha3_512_scenario_c :
    sha3_512_hex "name[name(key=value)]".data
      = ("e49dc6621f68ebd6e9cf46441f36222bc8325727f278edf20fb990da70fa90db" ++
         "9a5ee8d5acec458703b49701682ff1e2de2483a0e7dba87f1fc14a7a1c20fb7e").data := by
  decide

/-! Claim theorems. -/

/-- C1: the claim says a zero-attribute category builds to `"NAME()"`,
the pop step firing only when an attribute was rendered. The code pops
twice unconditionally, so with zero attributes it removes `'('` and the
final character of the name: both copies of
`IdentifierTypeDataBuilder::build` yield `"CP)"` for a fresh `CPU`
builder, not `"CPU()"`. -/
theorem c1_zero_attribute_category_mangles_name :
    (Lib.IdentifierTypeDataBuilder.new .CPU).build = "CP)".data
    ∧ (Ident.IdentifierTypeDataBuilder.new .CPU).build = "CP)".data := by
  decide

/-- C2 counterexample: the claim says an unrecognized category name is
signalled as a recoverable, named error result. In the code the
catch-all `match` arm aborts via an unrecoverable panic (modelled as
`none`): converting `"GPU"` produces no result at all, in either copy. -/
theorem c2_unknown_tag_aborts_counterexample :
    Lib.IdentifierType.fromStr "GPU".data = none
    ∧ Ident.IdentifierTypeName.fromStr "GPU".data = none := by
  decide

/-- C2 amended: the three recognized names convert to the corresponding
variants; every other string makes the conversion abort with a panic
(`none` in the model) rather than return a recoverable error value. -/
theorem c2_tag_conversion_amended :
    Lib.IdentifierType.fromStr "CPU".data = some .CPU
    ∧ Lib.IdentifierType.fromStr "RAM".data = some .RAM
    ∧ Lib.IdentifierType.fromStr "DISK".data = some .DISK
    ∧ Ident.IdentifierTypeName.fromStr "CPU".data = some .CPU
    ∧ Ident.IdentifierTypeName.fromStr "RAM".data = some .RAM
    ∧ Ident.IdentifierTypeName.fromStr "DISK".data = some .DISK
    ∧ (∀ s : Str, s ≠ "CPU".data → s ≠ "RAM".data → s ≠ "DISK".data →
        Lib.IdentifierType.fromStr s = none
        ∧ Ident.IdentifierTypeName.fromStr s = none) := by
  refine ⟨by decide, by decide, by decide, by decide, by decide, by decide, ?_⟩
  intro s h1 h2 h3
  constructor
  · simp [Lib.IdentifierType.fromStr, h1, h2, h3]
  · simp [Ident.IdentifierTypeName.fromStr, h1, h2, h3]

/-- Witness for C2 amended at the concrete unrecognized name `"NET"`. -/
theorem c2_tag_conversion_amended_witness :
    Lib.IdentifierType.fromStr "NET".data = none
    ∧ Ident.IdentifierTypeName.fromStr "NET".data = none :=
  c2_tag_conversion_amended.2.2.2.2.2.2 "NET".data
    (by decide) (by decide) (by decide)

/-- C3: the claim says a fingerprint with a present label and an empty
category list renders to `"LABEL[]"`. The code pops twice
unconditionally, removing `'['` and the final label character: both
copies yield `"LABE]"` for label `"LABEL"` and no categories. -/
theorem c3_empty_category_list_mangles_label :
    (Lib.Identifier.mk (some "LABEL".data) []).to_string false ⟨[], [], 0, 0, 0, []⟩
      = "LABE]".data
    ∧ (Ident.Identifier.mk (some "LABEL".data) []).build false ⟨[], [], 0, 0, 0, []⟩
      = "LABE]".data := by
  decide

/-- C4 counterexample: the claim says the unhashed render is a pure
function of the in-memory tree alone, never re-querying the system.
Rendering the very same tree under two probe states that differ only in
total memory yields two different strings. -/
theorem c4_render_not_probe_independent_counterexample :
    (Lib.Identifier.mk (some "A".data) [Lib.IdentifierTypeDataList.new .RAM]).to_string
        false ⟨[], [], 0, 0, 0, []⟩
      ≠ (Lib.Identifier.mk (some "A".data) [Lib.IdentifierTypeDataList.new .RAM]).to_string
        false ⟨[], [], 0, 0, 1, []⟩ := by
  decide

/-- C4 amended: rendering is determined by the label, the category
tags, and the operating-system probe state together; the stored
attribute vectors are ignored (the render re-queries the probe instead
of serializing stored attributes), and for a fixed probe state the
render is deterministic. Both copies of the pipeline are covered. -/
theorem c4_render_determined_by_tags_and_probe :
    (∀ (name : Option Str) (hash : Bool) (sys : SysState)
        (l1 l2 : List Lib.IdentifierTypeDataList),
      l1.map (fun i => i.identifier) = l2.map (fun i => i.identifier) →
      (Lib.Identifier.mk name l1).to_string hash sys
        = (Lib.Identifier.mk name l2).to_string hash sys)
    ∧ (∀ (name : Option Str) (hash : Bool) (sys : SysState)
        (l1 l2 : List Ident.IdentifierType),
      l1.map (fun i => i.name) = l2.map (fun i => i.name) →
      (Ident.Identifier.mk name l1).build hash sys
        = (Ident.Identifier.mk name l2).build hash sys) := by
  constructor
  · intro name hash sys l1 l2 h
    simp only [Lib.Identifier.to_string]
    rw [lib_map_build_of_tags_eq sys l1 l2 h]
  · intro name hash sys l1 l2 h
    simp only [Ident.Identifier.build]
    rw [ident_map_build_of_tags_eq sys l1 l2 h]

/-- Witness for C4 amended: two trees with the same `RAM` tag but
different stored attribute vectors render identically under one
concrete probe state. -/
theorem c4_render_determined_by_tags_and_probe_witness :
    (Lib.Identifier.mk (some "A".data) [Lib.IdentifierTypeDataList.new .RAM]).to_string
        false ⟨[], [], 0, 0, 7, []⟩
      = (Lib.Identifier.mk (some "A".data)
          [Lib.IdentifierTypeDataList.mk .RAM
            [Lib.IdentifierTypeData.new "k".data "v".data]]).to_string
        false ⟨[], [], 0, 0, 7, []⟩ :=
  c4_render_determined_by_tags_and_probe.1 (some "A".data) false
    ⟨[], [], 0, 0, 7, []⟩ _ _ (by decide)

/-- C5: for every fingerprint and probe state, the hashed render equals
the SHA3-512 digest of the UTF-8 bytes of the unhashed render, written
as exactly 128 characters of the lowercase hexadecimal alphabet (each
digest byte contributes exactly two zero-padded digits, so leading zero
bytes keep the length at 128); both copies of the pipeline are covered. -/
theorem c5_hashed_render_is_sha3_512_hex (idl : Lib.Identifier)
    (idr : Ident.Identifier) (sys : SysState) :
    idl.to_string true sys
      = hexChars (sha3_512 (utf8Encode (idl.to_string false sys)))
    ∧ (idl.to_string true sys).length = 128
    ∧ (idl.to_string true sys).all isLowerHexDigit = true
    ∧ idr.build true sys
      = hexChars (sha3_512 (utf8Encode (idr.build false sys)))
    ∧ (idr.build true sys).length = 128
    ∧ (idr.build true sys).all isLowerHexDigit = true := by
  have hl : idl.to_string true sys
      = hexChars (sha3_512 (utf8Encode (idl.to_string false sys))) := rfl
  have hr : idr.build true sys
      = hexChars (sha3_512 (utf8Encode (idr.build false sys))) := rfl
  refine ⟨hl, ?_, ?_, hr, ?_, ?_⟩
  · rw [hl, length_hexChars, length_sha3_512]
  · rw [hl]; exact all_hexChars _
  · rw [hr, length_hexChars, length_sha3_512]
  · rw [hr]; exact all_hexChars _

/-- C6: on a non-empty attribute list, both copies of
`IdentifierTypeDataBuilder::build` return the name, `'('`, the
`key=value` renderings joined by the two-character separator `", "` in
insertion order, and `')'`. -/
theorem c6_nonempty_category_render_joins_attributes :
    (∀ (t : Lib.IdentifierType) (attrs : List Lib.IdentifierTypeData), attrs ≠ [] →
      (Lib.IdentifierTypeDataBuilder.mk t attrs).build
        = t.as_str ++ "(".data ++
          List.intercalate ", ".data (attrs.map Lib.IdentifierTypeData.fmt) ++ ")".data)
    ∧ (∀ (t : Ident.IdentifierTypeName) (attrs : List Ident.IdentifierTypeData),
        attrs ≠ [] →
      (Ident.IdentifierTypeDataBuilder.mk t attrs).build
        = t.as_str ++ "(".data ++
          List.intercalate ", ".data
            (attrs.map Ident.IdentifierTypeData.to_string) ++ ")".data) :=
  ⟨lib_build_of_ne_nil, ident_build_of_ne_nil⟩

/-- Witness for C6 at one concrete attribute: spec §8 scenario A. -/
theorem c6_nonempty_category_render_joins_attributes_witness :
    (Lib.IdentifierTypeDataBuilder.mk .CPU
        [Lib.IdentifierTypeData.new "key".data "value".data]).build
      = "CPU(key=value)".data := by
  have h := c6_nonempty_category_render_joins_attributes.1 .CPU
    [Lib.IdentifierTypeData.new "key".data "value".data] (by decide)
  rw [h]
  decide

/-- C7: an attribute with key `k` and value `v` renders as exactly
`k ++ "=" ++ v` with no surrounding whitespace, in both copies, and
construction always succeeds, storing the two fields unchanged. -/
theorem c7_attribute_render_exact (k v : Str) :
    (Lib.IdentifierTypeData.new k v).fmt = k ++ "=".data ++ v
    ∧ (Ident.IdentifierTypeData.new k v).to_string = k ++ "=".data ++ v
    ∧ (Lib.IdentifierTypeData.new k v).key = k
    ∧ (Lib.IdentifierTypeData.new k v).value = v :=
  ⟨rfl, rfl, rfl, rfl⟩

/-- C8: for every optional name and tag sequence, running the
`IdentifierBuilder` (set the name if present, `add` each tag in order,
then `build`) yields exactly the `Identifier` obtained by direct
construction followed by appending `IdentifierTypeDataList::new(tag)`
for each tag in the same order. -/
theorem c8_builder_equals_direct_construction (name : Option Str)
    (tags : List Lib.IdentifierType) :
    (tags.foldl Lib.IdentifierBuilder.add
        (match name with
         | some n => Lib.IdentifierBuilder.default.set_name n
         | none => Lib.IdentifierBuilder.default)).build
      = directConstructThenAppend name tags := by
  rw [Lib.foldl_add_build]
  cases name <;> rfl

/-- C9: the two duplicated copies of the pipeline agree: a category
builds to the same string through `IdentifierTypeDataBuilder::build` of
lib.rs and of identifier.rs, and a fingerprint renders to the same
string (hashed or not) through `Identifier::to_string` of lib.rs and
`Identifier::build` of identifier.rs, for every probe state. -/
theorem c9_duplicate_pipelines_agree :
    (∀ (t : Lib.IdentifierType) (data : List Lib.IdentifierTypeData),
      (Lib.IdentifierTypeDataBuilder.mk t data).build
        = (Ident.IdentifierTypeDataBuilder.mk (tagOfLib t) (data.map dataOfLib)).build)
    ∧ (∀ (name : Option Str) (data : List Lib.IdentifierTypeDataList)
        (hash : Bool) (sys : SysState),
      (Lib.Identifier.mk name data).to_string hash sys
        = (Ident.Identifier.mk name (data.map listOfLib)).build hash sys) := by
  constructor
  · intro t data
    cases t <;>
      simp [Lib.IdentifierTypeDataBuilder.build, Ident.IdentifierTypeDataBuilder.build,
        Lib.IdentifierType.as_str, Ident.IdentifierTypeName.as_str, tagOfLib,
        List.map_map, dataOfLib, Function.comp_def]
  · intro name data hash sys
    have hmap : (data.map listOfLib).map (fun i => i.build sys ++ ", ".data)
        = data.map (fun i => i.build sys ++ ", ".data) := by
      rw [List.map_map]
      exact List.map_congr_left fun a _ => by
        simp [Function.comp_def, ← buildList_eq_buildType]
    simp only [Lib.Identifier.to_string, Ident.Identifier.build]
    rw [hmap]

/-- C10: the string assembly is total on every input, including empty
ones — the unconditional pop pair never underflows, it is a no-op on a
too-short buffer, though it can remove non-separator characters. The
builder build and the fingerprint assembly are characterized in full:
the empty case drops the last character of the name / label, the
non-empty case removes exactly the trailing separator. -/
theorem c10_assembly_total_no_underflow :
    (∀ (t : Lib.IdentifierType) (attrs : List Lib.IdentifierTypeData),
      (Lib.IdentifierTypeDataBuilder.mk t attrs).build
        = if attrs = [] then t.as_str.dropLast ++ ")".data
          else t.as_str ++ "(".data ++
            List.intercalate ", ".data (attrs.map Lib.IdentifierTypeData.fmt) ++ ")".data)
    ∧ (∀ (name : Option Str) (data : List Lib.IdentifierTypeDataList) (sys : SysState),
      (Lib.Identifier.mk name data).to_string false sys
        = if data = [] then
            (match name with | some n => n | none => []).dropLast ++ "]".data
          else (match name with | some n => n | none => []) ++ "[".data ++
            List.intercalate ", ".data (data.map (fun i => i.build sys)) ++ "]".data) := by
  constructor
  · intro t attrs
    by_cases h : attrs = []
    · subst h
      simp [lib_build_of_nil]
    · rw [if_neg h, lib_build_of_ne_nil t attrs h]
  · intro name data sys
    by_cases h : data = []
    · subst h
      simp [Lib.to_string_false_of_nil]
    · rw [if_neg h, Lib.to_string_false_of_ne_nil name data h sys]

end Uniqueid
